import Mathlib

/-!
Shallow embedding of the scheduling, override-resolution and command-multiplexing
core of the redshift fork (src/src/utils.c, src/src/redshift-dbus.c,
src/src/commands.c, src/src/redshift.c), together with proofs of the spec claims.

Conventions of the embedding:
* C `double` values (solar elevations, progress, brightness) are modelled as `ℚ`;
  the claims under study are about exact comparisons, branch structure and
  algebraic form, not about floating-point rounding.
* C `int` values are modelled as `ℤ`, C `guint`/`guint32` as `ℕ` (with explicit
  `% 2^32` where 32-bit wrap-around matters).
* Byte buffers are modelled as `List Char` (command input is ASCII text).
* Fallible RPC handlers return `Except DBusError _`.
-/

namespace Redshift

/-- Period of day, mirroring `period_t` in src/src/redshift.h
(PERIOD_NONE, PERIOD_DAYTIME, PERIOD_NIGHT, PERIOD_TRANSITION). -/
inductive Period where
  | periodNone
  | daytime
  | night
  | transition
deriving DecidableEq, Repr

/-- Transition scheme, mirroring `transition_scheme_t` in src/src/redshift.h;
the two `time_range_t` members `dawn` and `dusk` are flattened into their
`start`/`end` fields (`dawnStart` = `dawn.start`, `dawnEnd` = `dawn.end`,
`duskStart` = `dusk.start`, `duskEnd` = `dusk.end`).  The `day`/`night` color
settings are not needed by the claims under study and are omitted. -/
structure TransitionScheme where
  high : ℚ
  low : ℚ
  useTime : Bool
  dawnStart : ℤ
  dawnEnd : ℤ
  duskStart : ℤ
  duskEnd : ℤ
deriving DecidableEq, Repr

/-- Embeds `get_period_from_elevation` (src/src/utils.c lines 505-516). -/
def getPeriodFromElevation (t : TransitionScheme) (elevation : ℚ) : Period :=
  if elevation < t.low then .night
  else if elevation < t.high then .transition
  else .daytime

/-- Embeds `get_transition_progress_from_elevation` (src/src/utils.c lines 540-552). -/
def getTransitionProgressFromElevation (t : TransitionScheme) (elevation : ℚ) : ℚ :=
  if elevation < t.low then 0
  else if elevation < t.high then (t.low - elevation) / (t.low - t.high)
  else 1

/-- Embeds `get_period_from_time` (src/src/utils.c lines 490-502). -/
def getPeriodFromTime (t : TransitionScheme) (timeOffset : ℤ) : Period :=
  if timeOffset < t.dawnStart ∨ timeOffset ≥ t.duskEnd then .night
  else if timeOffset ≥ t.dawnEnd ∧ timeOffset < t.duskStart then .daytime
  else .transition

/-- Embeds `get_transition_progress_from_time` (src/src/utils.c lines 519-537).
The C code divides `int` differences as `double`; here the integer differences
are cast to `ℚ` and divided there. -/
def getTransitionProgressFromTime (t : TransitionScheme) (timeOffset : ℤ) : ℚ :=
  if timeOffset < t.dawnStart ∨ timeOffset ≥ t.duskEnd then 0
  else if timeOffset < t.dawnEnd then
    ((t.dawnStart - timeOffset : ℤ) : ℚ) / ((t.dawnStart - t.dawnEnd : ℤ) : ℚ)
  else if timeOffset > t.duskStart then
    ((t.duskEnd - timeOffset : ℤ) : ℚ) / ((t.duskEnd - t.duskStart : ℤ) : ℚ)
  else 1

/-- Embeds the dawn/dusk time-configuration validation fragment of
`redshift_init_options` (src/src/utils.c lines 413-433): given the four
configured offsets, returns `.error ()` when the configuration is rejected
(partially-given times, or an ordering violation), `.ok true` when the
time-based configuration is accepted (`use_time = 1`), and `.ok false` when no
time-based configuration was given. -/
def timeOptionsCheck (dawnStart dawnEnd duskStart duskEnd : ℤ) : Except Unit Bool :=
  if dawnStart ≥ 0 ∨ dawnEnd ≥ 0 ∨ duskStart ≥ 0 ∨ duskEnd ≥ 0 then
    if dawnStart < 0 ∨ dawnEnd < 0 ∨ duskStart < 0 ∨ duskEnd < 0 then
      .error ()
    else if dawnStart > dawnEnd ∨ dawnEnd > duskStart ∨ duskStart > duskEnd then
      .error ()
    else
      .ok true
  else
    .ok false

/-! ### DBus front-end state (src/src/redshift-dbus.c) -/

/-- Neutral color temperature: `TEMP_NEUTRAL` in src/src/redshift-dbus.c
(equal to `NEUTRAL_TEMP` in src/src/redshift.h). -/
def TEMP_NEUTRAL : ℕ := 6500

/-- Temperature bound `MIN_TEMP` from src/src/redshift.h. -/
def MIN_TEMP : ℕ := 1000

/-- Temperature bound `MAX_TEMP` from src/src/redshift.h. -/
def MAX_TEMP : ℕ := 25000

/-- The cookie-keyed override state of the DBus front-end
(src/src/redshift-dbus.c lines 117-157): the registered-cookie table, the
inhibitor set, the two forced-temperature layers
(`forced_temp_cookie[i]`/`forced_temp[i]`, index 0 = normal, 1 = priority;
cookie 0 means the layer is empty), and the forced-location cookie slot.
The hash tables are modelled as lists of cookies. -/
structure DBusState where
  cookies : List ℤ
  inhibitors : List ℤ
  forcedTempCookie0 : ℤ
  forcedTempCookie1 : ℤ
  forcedTemp0 : ℕ
  forcedTemp1 : ℕ
  forcedLocationCookie : ℤ
deriving DecidableEq, Repr

/-- Errors returned by `handle_method_call` in src/src/redshift-dbus.c. -/
inductive DBusError where
  | unknownCookie
  | alreadyEnforced
  | invalidArgument
deriving DecidableEq, Repr

/-- Embeds the temperature-resolution slice of `screen_update_cb`
(src/src/redshift-dbus.c lines 352-370): `sched` is the temperature the
scheduler computed for `color_setting` earlier in the callback; if any
inhibitor is present the setting is reset to neutral, otherwise the layer
scan `for (i = FORCED_TEMP_LAYERS-1; i >= 0; i--)` picks the
highest-index occupied forced-temperature layer, and with no occupied layer
the scheduler value stands. -/
def effectiveTemp (s : DBusState) (sched : ℕ) : ℕ :=
  if s.inhibitors ≠ [] then TEMP_NEUTRAL
  else if s.forcedTempCookie1 ≠ 0 then s.forcedTemp1
  else if s.forcedTempCookie0 ≠ 0 then s.forcedTemp0
  else sched

/-- Embeds the `ReleaseCookie` branch of `handle_method_call`
(src/src/redshift-dbus.c lines 520-556).  Returns the new state together
with the `found` flag: `screen_update_restart` is invoked exactly when
`found` is true.  `g_hash_table_remove` on the inhibitor set is modelled by
a filter plus a membership test for its boolean result. -/
def releaseCookie (s : DBusState) (cookie : ℤ) : Except DBusError (DBusState × Bool) :=
  if cookie ∈ s.cookies then
    let found : Bool := decide (cookie ∈ s.inhibitors)
      || decide (s.forcedTempCookie0 = cookie)
      || decide (s.forcedTempCookie1 = cookie)
      || decide (s.forcedLocationCookie = cookie)
    .ok ({ s with
            cookies := s.cookies.filter (fun x => x ≠ cookie),
            inhibitors := s.inhibitors.filter (fun x => x ≠ cookie),
            forcedTempCookie0 :=
              if s.forcedTempCookie0 = cookie then 0 else s.forcedTempCookie0,
            forcedTempCookie1 :=
              if s.forcedTempCookie1 = cookie then 0 else s.forcedTempCookie1,
            forcedLocationCookie :=
              if s.forcedLocationCookie = cookie then 0 else s.forcedLocationCookie },
          found)
  else
    .error .unknownCookie

/-- Embeds the `EnforceTemperature` branch of `handle_method_call`
(src/src/redshift-dbus.c lines 599-639).  Note the order of the checks in
the source: the unknown-cookie check, then the already-enforced check on the
targeted layer (`index = priority ? 1 : 0`), and only then the
`temp < MIN_TEMP || temp > MAX_TEMP` bounds check. -/
def enforceTemperature (s : DBusState) (cookie : ℤ) (temp : ℕ) (priority : Bool) :
    Except DBusError DBusState :=
  if cookie ∈ s.cookies then
    let slot := if priority then s.forcedTempCookie1 else s.forcedTempCookie0
    if slot ≠ 0 ∧ slot ≠ cookie then
      .error .alreadyEnforced
    else if temp < MIN_TEMP ∨ temp > MAX_TEMP then
      .error .invalidArgument
    else
      .ok (if priority then
             { s with forcedTempCookie1 := cookie, forcedTemp1 := temp }
           else
             { s with forcedTempCookie0 := cookie, forcedTemp0 := temp })
  else
    .error .unknownCookie

/-! ### Short-transition (fade) restart in the DBus front-end -/

/-- Unsigned 32-bit subtraction `a - b` as performed on `guint` operands. -/
def guintSub (a b : ℕ) : ℕ :=
  (a % 2 ^ 32 + (2 ^ 32 - b % 2 ^ 32)) % 2 ^ 32

/-- Embeds the fade-restart fragment of `screen_update_cb`
(src/src/redshift-dbus.c lines 412-424): when the new target differs
majorly from the currently displayed setting, the code sets
`trans_length = 40 - trans_time` (both `guint`, so 32-bit unsigned
arithmetic) and `trans_time = 0`.  Returns the pair
(new `trans_length`, new `trans_time`). -/
def transRestart (transTime : ℕ) : ℕ × ℕ :=
  (guintSub 40 transTime, 0)

/-! ### Command channel (src/src/commands.c) -/

/-- Buffer capacity `BUF_LEN` from src/src/commands.h. -/
def BUF_LEN : ℕ := 256

/-- Per-connection input buffer, mirroring `command_input_t` in
src/src/commands.h: `stored` is the content of `buf` up to the cursor `pos`
(so `pos - buf = stored.length`), `skip` is the skip flag. -/
structure CommandInput where
  stored : List Char
  skip : Bool
deriving DecidableEq, Repr

/-- Brightness bound `MIN_BRIGHTNESS` from src/src/redshift.h. -/
def MIN_BRIGHTNESS : ℚ := 1 / 10

/-- Brightness bound `MAX_BRIGHTNESS` from src/src/redshift.h. -/
def MAX_BRIGHTNESS : ℚ := 1

/-- Modelled from the spec: the override fields of the transition scheme used
by src/src/commands.c (`scheme->override.temperature`,
`scheme->override.brightness`, and the `USE_OVERRIDE_TEMP` /
`USE_OVERRIDE_BRIGHTNESS` bits of `scheme->use_override`); the header
declaring these fields is not part of src/, so the two mask bits are
modelled as two booleans (spec section 4.5: the standing temperature and
brightness overrides set by `temp`/`brightness` commands). -/
structure CmdScheme where
  overrideTemperature : ℤ
  overrideBrightness : ℚ
  useOverrideTemp : Bool
  useOverrideBrightness : Bool
deriving DecidableEq, Repr

/-- The slice of `color_setting_t` (src/src/redshift.h) read by
`parse_command` through its `current` argument. -/
structure CmdColor where
  temperature : ℤ
  brightness : ℚ
deriving DecidableEq, Repr

/-- Modelled from the spec: the `CLAMP(lo, x, hi)` macro used by
src/src/commands.c (defined in a header not under src/); spec section 4.5:
"All results clamp to [0.1, 1.0]" resp. "[1000, 25000]". -/
def clampQ (lo x hi : ℚ) : ℚ := max lo (min x hi)

/-- Integer version of `CLAMP` (see `clampQ`). -/
def clampZ (lo x hi : ℤ) : ℤ := max lo (min x hi)

/-- Models `strncmp(buf, s, strlen(s)) == 0`: the characters of `s` are a
prefix of the line. -/
def kw (s : String) (l : List Char) : Bool := s.toList.isPrefixOf l

/-- Space or horizontal tab, as skipped by `parse_command`. -/
def isWS (c : Char) : Bool := c = ' ' || c = '\t'

/-- Value of a list of decimal digit characters. -/
def digitsToNat (l : List Char) : ℕ :=
  l.foldl (fun acc c => 10 * acc + (c.toNat - '0'.toNat)) 0

/-- Model of the libc `strtol(p, &e, 10)` call in `parse_command`, which is
only reached when the first character is a digit: returns the value of the
longest digit prefix together with the number of characters consumed
(`e - p`). -/
def strtolDec (l : List Char) : ℤ × ℕ :=
  let ds := l.takeWhile Char.isDigit
  ((digitsToNat ds : ℤ), ds.length)

/-- Model of the libc `strtof(p, &e)` call in `parse_command`, which is only
reached when the first character is a digit or a dot: parses the decimal
forms `d+`, `d+.d*` and `.d+`, returning the value and the number of
characters consumed (`e - p`); a bare dot consumes nothing. -/
def strtofDec (l : List Char) : ℚ × ℕ :=
  let ds := l.takeWhile Char.isDigit
  match l.drop ds.length with
  | '.' :: r2 =>
    let fs := r2.takeWhile Char.isDigit
    if ds.isEmpty && fs.isEmpty then (0, 0)
    else ((digitsToNat ds : ℚ) + (digitsToNat fs : ℚ) / (10 ^ fs.length : ℚ),
          ds.length + 1 + fs.length)
  | _ => ((digitsToNat ds : ℚ), ds.length)

/-- Embeds the body of the `brightness` branch of `parse_command`
(src/src/commands.c lines 40-67) for the case `i < len`; `rest` is
`buf + i`, the line after the keyword with blanks skipped.  Returns the
updated scheme and the `return` value of `parse_command`.  Note the source
compares only two characters of `"down"` (`strncmp(buf+i,"down",2)`), and
the `reset` arm clears the override bit but then falls through to the
`return 0` at the end of the branch. -/
def brightnessBody (rest : List Char) (scheme : CmdScheme) (current : CmdColor) :
    CmdScheme × ℤ :=
  match rest with
  | [] => (scheme, 0)
  | c0 :: _ =>
    if c0.isDigit || c0 = '.' then
      let p := strtofDec rest
      if p.2 ≠ 0 then
        ({ scheme with
            overrideBrightness := clampQ MIN_BRIGHTNESS p.1 MAX_BRIGHTNESS,
            useOverrideBrightness := true }, 1)
      else (scheme, 0)
    else
      let delta : ℚ := if kw "up" rest then 1 / 10
                       else if kw "do" rest then -(1 / 10) else 0
      if delta ≠ 0 then
        let b := if scheme.useOverrideBrightness then scheme.overrideBrightness
                 else current.brightness
        ({ scheme with
            overrideBrightness := clampQ MIN_BRIGHTNESS (b + delta) MAX_BRIGHTNESS,
            useOverrideBrightness := true }, 1)
      else if kw "reset" rest then
        ({ scheme with useOverrideBrightness := false }, 0)
      else (scheme, 0)

/-- Embeds the body of the `temp` branch of `parse_command`
(src/src/commands.c lines 83-111).  `some r` models a `return r` inside the
branch; `none` models falling through to the final `shutdown` check and
`return 0` (which happens when `i = len`, after `temp reset`, and for an
unrecognized argument). -/
def tempBody (rest : List Char) (scheme : CmdScheme) (current : CmdColor) :
    CmdScheme × Option ℤ :=
  match rest with
  | [] => (scheme, none)
  | c0 :: _ =>
    if c0.isDigit then
      let p := strtolDec rest
      if p.2 ≠ 0 then
        ({ scheme with
            overrideTemperature := clampZ (MIN_TEMP : ℤ) p.1 (MAX_TEMP : ℤ),
            useOverrideTemp := true }, some 1)
      else (scheme, some 0)
    else
      let delta : ℤ := if kw "up" rest then 500
                       else if kw "do" rest then -500 else 0
      if delta ≠ 0 then
        let tc := if scheme.useOverrideTemp then scheme.overrideTemperature
                  else current.temperature
        ({ scheme with
            overrideTemperature := clampZ (MIN_TEMP : ℤ) (tc + delta) (MAX_TEMP : ℤ),
            useOverrideTemp := true }, some 1)
      else if kw "reset" rest then
        ({ scheme with useOverrideTemp := false }, none)
      else (scheme, none)

/-- Result of `parse_command`: the updated scheme, the updated `*disabled`
flag, the `exiting` global (from signals.h, set by `shutdown`), and the
return value. -/
structure ParseResult where
  scheme : CmdScheme
  disabled : Bool
  exiting : Bool
  ret : ℤ
deriving DecidableEq, Repr

/-- Embeds `parse_command` (src/src/commands.c lines 38-114).  `line` is the
null-terminated command line `buf` of length `len` (without the
terminator).  Keyword tests are prefix tests, mirroring the `strncmp`
calls, in source order: `brightness`, `enable`, `disable`, `toggle`,
`temp`, `shutdown`. -/
def parseCommand (line : List Char) (scheme : CmdScheme) (current : CmdColor)
    (disabled exiting : Bool) : ParseResult :=
  if kw "brightness" line then
    if 10 < line.length then
      let p := brightnessBody ((line.drop 10).dropWhile isWS) scheme current
      ⟨p.1, disabled, exiting, p.2⟩
    else ⟨scheme, disabled, exiting, 0⟩
  else if kw "enable" line then ⟨scheme, false, exiting, 1⟩
  else if kw "disable" line then ⟨scheme, true, exiting, 1⟩
  else if kw "toggle" line then ⟨scheme, !disabled, exiting, 1⟩
  else
    let p := if kw "temp" line then
               tempBody ((line.drop 4).dropWhile isWS) scheme current
             else (scheme, none)
    match p.2 with
    | some r => ⟨p.1, disabled, exiting, r⟩
    | none => ⟨p.1, disabled, if kw "shutdown" line then true else exiting, 0⟩

/-- Index of the first newline in a list of characters, if any. -/
def firstNL : List Char → Option ℕ
  | [] => none
  | c :: cs => if c = '\n' then some 0 else (firstNL cs).map (· + 1)

/-- Embeds the framing part of `handle_commands_socket`
(src/src/commands.c lines 153-204): `avail` is the byte sequence returned
by the `MSG_PEEK` `recv` (so `avail.length ≤ BUF_LEN - c.stored.length`),
and the function returns the updated buffer state together with the line
handed to `parse_command`, if any.  The branch order mirrors the source:
the scan for a newline among the peeked bytes, then the
`pos == buf + buf_len` overlong-line discard, the partial-line store, the
skip-clearing branch, and finally the dispatch of `buf .. pos`. -/
def socketFrame (c : CommandInput) (avail : List Char) :
    CommandInput × Option (List Char) :=
  match firstNL avail with
  | none =>
    if c.stored.length + avail.length = BUF_LEN then (⟨[], true⟩, none)
    else (⟨c.stored ++ avail, c.skip⟩, none)
  | some i =>
    if c.skip then (⟨[], false⟩, none)
    else (⟨[], false⟩, some (c.stored ++ avail.take i))

/-- Result of `handle_commands_socket` / `handle_commands_file`: the updated
buffer, the updated scheme / `*disabled` / `exiting` state, and the return
value (`-1` on error, otherwise the `parse_command` result or `0`). -/
structure HandleResult where
  input : CommandInput
  scheme : CmdScheme
  disabled : Bool
  exiting : Bool
  ret : ℤ
deriving DecidableEq, Repr

/-- Embeds `handle_commands_socket` (src/src/commands.c lines 153-204):
framing via `socketFrame`, then `parse_command` on the extracted line.
A zero-length `avail` models a `recv` returning 0 (peer EOF): the source
leaves that case to the generic paths (the `r == 0` branch is an empty
`TODO`), so it lands in the partial-line store and returns 0. -/
def handleCommandsSocket (c : CommandInput) (avail : List Char) (scheme : CmdScheme)
    (current : CmdColor) (disabled exiting : Bool) : HandleResult :=
  match socketFrame c avail with
  | (c', none) => ⟨c', scheme, disabled, exiting, 0⟩
  | (c', some line) =>
    let p := parseCommand line scheme current disabled exiting
    ⟨c', p.scheme, p.disabled, p.exiting, p.ret⟩

/-- Embeds `handle_commands_file` (src/src/commands.c lines 118-151):
`input` is `none` when `fgets` returns NULL (EOF / error, return `-1`),
otherwise the characters `fgets` stored at the cursor.  The scan and the
branch order mirror the source (overlong check, short-read check, skip
check, dispatch). -/
def handleCommandsFile (c : CommandInput) (input : Option (List Char))
    (scheme : CmdScheme) (current : CmdColor) (disabled exiting : Bool) :
    HandleResult :=
  match input with
  | none => ⟨c, scheme, disabled, exiting, -1⟩
  | some data =>
    match firstNL data with
    | none =>
      if c.stored.length + data.length = BUF_LEN then
        ⟨⟨[], true⟩, scheme, disabled, exiting, 0⟩
      else
        ⟨⟨c.stored ++ data, c.skip⟩, scheme, disabled, exiting, 0⟩
    | some i =>
      if c.skip then ⟨⟨[], false⟩, scheme, disabled, exiting, 0⟩
      else
        let p := parseCommand (c.stored ++ data.take i) scheme current disabled exiting
        ⟨⟨[], false⟩, p.scheme, p.disabled, p.exiting, p.ret⟩

/-- Event observed on one open client connection in a polling cycle:
no activity, `POLLERR`, or readable data (the bytes a `MSG_PEEK` would
return; `[]` means the peer has closed the connection). -/
inductive ConnEvent where
  | quiet
  | pollerr
  | dataReady (avail : List Char)
deriving DecidableEq, Repr

/-- Event observed on stdin in a polling cycle: no activity, `POLLERR`, or
readable (`input` is what `fgets` yields: `none` for EOF). -/
inductive StdinEvent where
  | quiet
  | pollerr
  | ready (input : Option (List Char))
deriving DecidableEq, Repr

/-- The multiplexer state acted on by `handle_poll_results`
(src/src/commands.c lines 207-291): whether stdin is still open
(`pollfds[1].fd >= 0`), its buffer (`cmds[0]`), and the client-connection
slot table (`pollfds[3+i]` / `cmds[1+i]`; `none` = free slot). -/
structure PollMux where
  stdinOpen : Bool
  stdinBuf : CommandInput
  conns : List (Option CommandInput)
deriving DecidableEq, Repr

/-- Result of `handle_poll_results`: updated multiplexer and command state,
and the returned count. -/
structure PollOutcome where
  mux : PollMux
  scheme : CmdScheme
  disabled : Bool
  exiting : Bool
  count : ℤ
deriving DecidableEq, Repr

/-- Fold step for part 3 of `handle_poll_results` (src/src/commands.c lines
270-288), one connection slot with its event: on `POLLERR` the slot is
closed; on data the slot runs `handle_commands_socket`, is closed when the
return value `r1` is negative, and bumps the count when `r1` is nonzero
(`else if(r1) r++`). -/
def connStep (current : CmdColor)
    (acc : List (Option CommandInput) × CmdScheme × Bool × Bool × ℤ)
    (p : Option CommandInput × ConnEvent) :
    List (Option CommandInput) × CmdScheme × Bool × Bool × ℤ :=
  match p with
  | (some _, .pollerr) => (acc.1 ++ [none], acc.2.1, acc.2.2.1, acc.2.2.2.1, acc.2.2.2.2)
  | (some cin, .dataReady avail) =>
    let r := handleCommandsSocket cin avail acc.2.1 current acc.2.2.1 acc.2.2.2.1
    if r.ret < 0 then (acc.1 ++ [none], acc.2.1, acc.2.2.1, acc.2.2.2.1, acc.2.2.2.2)
    else (acc.1 ++ [some r.input], r.scheme, r.disabled, r.exiting,
          if r.ret ≠ 0 then acc.2.2.2.2 + 1 else acc.2.2.2.2)
  | (slot, _) => (acc.1 ++ [slot], acc.2.1, acc.2.2.1, acc.2.2.2.1, acc.2.2.2.2)

/-- Embeds `handle_poll_results` (src/src/commands.c lines 207-291).
Part 1 handles stdin (`POLLERR` closes it, a read with negative result
closes it, a positive result is counted: `if(r1 > 0) r++`); part 2 of the
source (accepting a new connection on the listening socket) neither changes
the count nor produces events on the new slot within the same cycle and is
not modelled; part 3 folds `connStep` over the slot table.  `cevs` lists
the events of the connection slots, in slot order. -/
def handlePollResults (m : PollMux) (sev : StdinEvent) (cevs : List ConnEvent)
    (scheme : CmdScheme) (current : CmdColor) (disabled exiting : Bool) :
    PollOutcome :=
  let s1 :=
    if m.stdinOpen then
      match sev with
      | .quiet => (true, m.stdinBuf, scheme, disabled, exiting, (0 : ℤ))
      | .pollerr => (false, m.stdinBuf, scheme, disabled, exiting, (0 : ℤ))
      | .ready input =>
        let r := handleCommandsFile m.stdinBuf input scheme current disabled exiting
        (decide (r.ret ≥ 0), r.input, r.scheme, r.disabled, r.exiting,
         if r.ret > 0 then (1 : ℤ) else 0)
    else (false, m.stdinBuf, scheme, disabled, exiting, (0 : ℤ))
  let s3 := (m.conns.zip cevs).foldl (connStep current)
    ([], s1.2.2.1, s1.2.2.2.1, s1.2.2.2.2.1, s1.2.2.2.2.2)
  ⟨⟨s1.1, s1.2.1, s3.1⟩, s3.2.1, s3.2.2.1, s3.2.2.2.1, s3.2.2.2.2⟩

/-! ### Concrete states used by the theorems below -/

/-- Registered cookies 1 and 2; the normal forced-temperature layer is held
by cookie 2 at 5000 K. -/
def enforceDemo : DBusState :=
  { cookies := [1, 2], inhibitors := [], forcedTempCookie0 := 2,
    forcedTempCookie1 := 0, forcedTemp0 := 5000, forcedTemp1 := 0,
    forcedLocationCookie := 0 }

/-- Cookie 2 owns an inhibitor entry, the priority forced-temperature layer
and the forced location; cookie 1 owns the normal layer. -/
def relDemo : DBusState :=
  { cookies := [1, 2], inhibitors := [2], forcedTempCookie0 := 1,
    forcedTempCookie1 := 2, forcedTemp0 := 4000, forcedTemp1 := 7000,
    forcedLocationCookie := 2 }

/-- Normal layer held by cookie 1 at 4000 K, priority layer held by cookie 2
at 7000 K, no inhibitors (the scenario of spec section 8, priority layering). -/
def layeredDemo : DBusState :=
  { cookies := [1, 2], inhibitors := [], forcedTempCookie0 := 1,
    forcedTempCookie1 := 2, forcedTemp0 := 4000, forcedTemp1 := 7000,
    forcedLocationCookie := 0 }

/-- A state whose only relation is an inhibitor entry for cookie 7. -/
def inhDemo : DBusState :=
  { cookies := [7], inhibitors := [7], forcedTempCookie0 := 0,
    forcedTempCookie1 := 0, forcedTemp0 := 0, forcedTemp1 := 0,
    forcedLocationCookie := 0 }

/-- A command scheme with both the temperature and the brightness override
active. -/
def schemeBothOverrides : CmdScheme :=
  { overrideTemperature := 5000, overrideBrightness := 1 / 2,
    useOverrideTemp := true, useOverrideBrightness := true }

/-- A current color setting at the neutral temperature and full brightness. -/
def neutralCurrent : CmdColor := { temperature := 6500, brightness := 1 }

/-- A time-based scheme: dawn 6:00-7:00, dusk 20:00-21:00 (offsets in
seconds from midnight). -/
def timeDemo : TransitionScheme :=
  { high := 3, low := -6, useTime := true, dawnStart := 21600, dawnEnd := 25200,
    duskStart := 72000, duskEnd := 75600 }

/-- The elevation scheme of the spec section 8 scenario: low = -6, high = 3. -/
def elevDemo : TransitionScheme :=
  { high := 3, low := -6, useTime := false, dawnStart := -1, dawnEnd := -1,
    duskStart := -1, duskEnd := -1 }

/-! ## Helper lemmas -/

/-- Below the low elevation the transition progress is 0. -/
lemma progElev_of_lt_low {t : TransitionScheme} {e : ℚ} (h : e < t.low) :
    getTransitionProgressFromElevation t e = 0 := by
  simp [getTransitionProgressFromElevation, h]

/-- At or above the high elevation the transition progress is 1. -/
lemma progElev_of_high_le {t : TransitionScheme} {e : ℚ} (hlh : t.low < t.high)
    (h : t.high ≤ e) : getTransitionProgressFromElevation t e = 1 := by
  have h1 : ¬ e < t.low := not_lt.mpr (le_trans hlh.le h)
  have h2 : ¬ e < t.high := not_lt.mpr h
  simp [getTransitionProgressFromElevation, h1, h2]

/-- On `[low, high)` the transition progress is the affine ramp
`(e - low) / (high - low)`. -/
lemma progElev_of_mid {t : TransitionScheme} {e : ℚ} (h1 : t.low ≤ e) (h2 : e < t.high) :
    getTransitionProgressFromElevation t e = (e - t.low) / (t.high - t.low) := by
  have h1' : ¬ e < t.low := not_lt.mpr h1
  rw [getTransitionProgressFromElevation, if_neg h1', if_pos h2,
      show t.low - e = -(e - t.low) by ring,
      show t.low - t.high = -(t.high - t.low) by ring, neg_div_neg_eq]

/-- The transition progress at the low boundary itself is 0. -/
lemma progElev_low_val {t : TransitionScheme} (hlh : t.low < t.high) :
    getTransitionProgressFromElevation t t.low = 0 := by
  rw [progElev_of_mid le_rfl hlh, sub_self, zero_div]

/-- The transition progress at the high boundary itself is 1. -/
lemma progElev_high_val {t : TransitionScheme} (hlh : t.low < t.high) :
    getTransitionProgressFromElevation t t.high = 1 :=
  progElev_of_high_le hlh le_rfl

/-- The transition progress always lies in `[0, 1]`. -/
lemma progElev_bounds {t : TransitionScheme} (hlh : t.low < t.high) (e : ℚ) :
    0 ≤ getTransitionProgressFromElevation t e ∧
    getTransitionProgressFromElevation t e ≤ 1 := by
  rcases lt_or_le e t.low with h | h
  · rw [progElev_of_lt_low h]; norm_num
  · rcases lt_or_le e t.high with h2 | h2
    · rw [progElev_of_mid h h2]
      have hpos : (0 : ℚ) < t.high - t.low := sub_pos.mpr hlh
      exact ⟨div_nonneg (sub_nonneg.mpr h) hpos.le,
             (div_le_one hpos).mpr (by linarith)⟩
    · rw [progElev_of_high_le hlh h2]; norm_num

/-- A list contains no newline exactly when the newline scan finds nothing. -/
lemma firstNL_eq_none_iff (l : List Char) : firstNL l = none ↔ '\n' ∉ l := by
  induction l with
  | nil => simp [firstNL]
  | cons c cs ih =>
    by_cases hc : c = '\n'
    · simp [firstNL, hc]
    · simp [firstNL, hc, Option.map_eq_none', ih, Ne.symm hc]

/-- The newline scan on `l ++ '\n' :: r` with no newline in `l` finds the
newline at position `l.length`. -/
lemma firstNL_append_nl (l r : List Char) (h : '\n' ∉ l) :
    firstNL (l ++ '\n' :: r) = some l.length := by
  induction l with
  | nil => simp [firstNL]
  | cons c cs ih =>
    have hc : c ≠ '\n' := fun hh => h (by rw [hh]; exact List.mem_cons_self _ _)
    have hcs : '\n' ∉ cs := fun hm => h (List.mem_cons_of_mem _ hm)
    simp [firstNL, hc, ih hcs]

/-! ## Claim theorems -/

/-- Claim C1: for every transition scheme with `low < high` and every
elevation `e`, `get_period_from_elevation` returns Night iff `e < low`,
Daytime iff `e ≥ high`, and Transition otherwise; and
`get_transition_progress_from_elevation` is 0 for `e < low`, 1 for
`e ≥ high`, and `(low - e)/(low - high)` otherwise — a value that is 0 at
`e = low`, is the affine ramp `(e - low)/(high - low)` on `[low, high)`,
lies in `[0, 1]`, and is continuous (epsilon-delta) at `e = low` and at
`e = high`. -/
theorem elevation_scheme_spec (t : TransitionScheme) (hlh : t.low < t.high) (e : ℚ) :
    (getPeriodFromElevation t e = Period.night ↔ e < t.low) ∧
    (getPeriodFromElevation t e = Period.daytime ↔ t.high ≤ e) ∧
    (getPeriodFromElevation t e = Period.transition ↔ t.low ≤ e ∧ e < t.high) ∧
    (e < t.low → getTransitionProgressFromElevation t e = 0) ∧
    (t.high ≤ e → getTransitionProgressFromElevation t e = 1) ∧
    (t.low ≤ e → e < t.high →
      getTransitionProgressFromElevation t e = (t.low - e) / (t.low - t.high)) ∧
    (t.low ≤ e → e < t.high →
      getTransitionProgressFromElevation t e = (e - t.low) / (t.high - t.low)) ∧
    getTransitionProgressFromElevation t t.low = 0 ∧
    0 ≤ getTransitionProgressFromElevation t e ∧
    getTransitionProgressFromElevation t e ≤ 1 ∧
    (∀ ε : ℚ, 0 < ε → ∃ δ : ℚ, 0 < δ ∧ ∀ x : ℚ, |x - t.low| < δ →
      |getTransitionProgressFromElevation t x -
        getTransitionProgressFromElevation t t.low| < ε) ∧
    (∀ ε : ℚ, 0 < ε → ∃ δ : ℚ, 0 < δ ∧ ∀ x : ℚ, |x - t.high| < δ →
      |getTransitionProgressFromElevation t x -
        getTransitionProgressFromElevation t t.high| < ε) := by
  have hpos : (0 : ℚ) < t.high - t.low := sub_pos.mpr hlh
  refine ⟨?_, ?_, ?_, fun h => progElev_of_lt_low h, fun h => progElev_of_high_le hlh h,
          ?_, fun h1 h2 => progElev_of_mid h1 h2, progElev_low_val hlh,
          (progElev_bounds hlh e).1, (progElev_bounds hlh e).2, ?_, ?_⟩
  · unfold getPeriodFromElevation
    split_ifs with h1 h2 <;> simp_all
  · unfold getPeriodFromElevation
    split_ifs with h1 h2 <;> simp_all
    linarith
  · unfold getPeriodFromElevation
    split_ifs with h1 h2 <;> simp_all
  · intro h1 h2
    rw [getTransitionProgressFromElevation, if_neg (not_lt.mpr h1), if_pos h2]
  · intro ε hε
    refine ⟨min (ε * (t.high - t.low)) (t.high - t.low),
            lt_min (mul_pos hε hpos) hpos, fun x hx => ?_⟩
    rw [progElev_low_val hlh, sub_zero]
    rcases lt_or_le x t.low with hxl | hxl
    · rw [progElev_of_lt_low hxl]; simpa using hε
    · have h1 : x - t.low < min (ε * (t.high - t.low)) (t.high - t.low) :=
        lt_of_le_of_lt (le_abs_self _) hx
      have h2 : min (ε * (t.high - t.low)) (t.high - t.low) ≤ t.high - t.low :=
        min_le_right _ _
      have hxh : x < t.high := by linarith
      rw [progElev_of_mid hxl hxh,
          abs_of_nonneg (div_nonneg (sub_nonneg.mpr hxl) hpos.le)]
      refine (div_lt_iff₀ hpos).mpr ?_
      have h3 : min (ε * (t.high - t.low)) (t.high - t.low) ≤ ε * (t.high - t.low) :=
        min_le_left _ _
      linarith
  · intro ε hε
    refine ⟨min (ε * (t.high - t.low)) (t.high - t.low),
            lt_min (mul_pos hε hpos) hpos, fun x hx => ?_⟩
    rw [progElev_high_val hlh]
    rcases le_or_lt t.high x with hxh | hxh
    · rw [progElev_of_high_le hlh hxh]; simpa using hε
    · have h1 : t.high - x ≤ |x - t.high| := by
        rw [abs_sub_comm]; exact le_abs_self _
      have h2 : min (ε * (t.high - t.low)) (t.high - t.low) ≤ t.high - t.low :=
        min_le_right _ _
      have hxl : t.low < x := by linarith [hx]
      rw [progElev_of_mid hxl.le hxh]
      have heq : (x - t.low) / (t.high - t.low) - 1 =
          -((t.high - x) / (t.high - t.low)) := by
        field_simp
      rw [heq, abs_neg, abs_of_nonneg (div_nonneg (by linarith) hpos.le)]
      refine (div_lt_iff₀ hpos).mpr ?_
      have h3 : min (ε * (t.high - t.low)) (t.high - t.low) ≤ ε * (t.high - t.low) :=
        min_le_left _ _
      linarith [hx]

/-- Witness for C1: on the spec section 8 scheme (low = -6, high = 3),
elevation -1.5 lies in the transition band with progress 1/2. -/
theorem elevation_scheme_spec_witness :
    getPeriodFromElevation elevDemo (-3 / 2) = Period.transition ∧
    getTransitionProgressFromElevation elevDemo (-3 / 2) = 1 / 2 := by
  have h := elevation_scheme_spec elevDemo (by norm_num [elevDemo]) (-3 / 2)
  refine ⟨h.2.2.1.mpr (by norm_num [elevDemo]), ?_⟩
  have h7 := h.2.2.2.2.2.2.1 (by norm_num [elevDemo]) (by norm_num [elevDemo])
  rw [h7]
  norm_num [elevDemo]

/-- Claim C2: on every screen update of the RPC front-end, a non-empty
inhibitor set forces the neutral temperature and makes the result
independent of the forced-temperature layers; otherwise the effective
temperature comes from the highest-index occupied layer (priority index 1
before normal index 0), or from the scheduler value when no layer is
occupied; with the normal layer at 4000 K and the priority layer at 7000 K
the effective temperature is 7000 K, and releasing the priority cookie
reverts it to 4000 K. -/
theorem screen_update_resolution :
    (∀ (s : DBusState) (sched : ℕ), s.inhibitors ≠ [] →
        effectiveTemp s sched = TEMP_NEUTRAL) ∧
    (∀ (s s' : DBusState) (sched : ℕ), s.inhibitors ≠ [] → s'.inhibitors = s.inhibitors →
        effectiveTemp s' sched = effectiveTemp s sched) ∧
    (∀ (s : DBusState) (sched : ℕ), s.inhibitors = [] → s.forcedTempCookie1 ≠ 0 →
        effectiveTemp s sched = s.forcedTemp1) ∧
    (∀ (s : DBusState) (sched : ℕ), s.inhibitors = [] → s.forcedTempCookie1 = 0 →
        s.forcedTempCookie0 ≠ 0 → effectiveTemp s sched = s.forcedTemp0) ∧
    (∀ (s : DBusState) (sched : ℕ), s.inhibitors = [] → s.forcedTempCookie1 = 0 →
        s.forcedTempCookie0 = 0 → effectiveTemp s sched = sched) ∧
    effectiveTemp layeredDemo 5500 = 7000 ∧
    (∃ s' restarted, releaseCookie layeredDemo 2 = .ok (s', restarted) ∧
        effectiveTemp s' 5500 = 4000) := by
  refine ⟨?_, ?_, ?_, ?_, ?_, rfl, ⟨_, _, rfl, rfl⟩⟩
  · intro s sched h; simp [effectiveTemp, h]
  · intro s s' sched h he; simp [effectiveTemp, he, h]
  · intro s sched h h1; simp [effectiveTemp, h, h1]
  · intro s sched h h1 h0; simp [effectiveTemp, h, h1, h0]
  · intro s sched h h1 h0; simp [effectiveTemp, h, h1, h0]

/-- Witness for C2: concrete evaluations of the resolution rule. -/
theorem screen_update_resolution_witness :
    effectiveTemp inhDemo 4200 = TEMP_NEUTRAL ∧
    effectiveTemp layeredDemo 5500 = 7000 ∧
    effectiveTemp { layeredDemo with forcedTempCookie1 := 0 } 5500 = 4000 ∧
    effectiveTemp inhDemo 4200 =
      effectiveTemp { inhDemo with forcedTemp1 := 9000, forcedTempCookie1 := 3 } 4200 :=
  ⟨screen_update_resolution.1 inhDemo 4200 (by decide),
   screen_update_resolution.2.2.2.2.2.1,
   screen_update_resolution.2.2.2.1 { layeredDemo with forcedTempCookie1 := 0 } 5500
     (by decide) (by decide) (by decide),
   (screen_update_resolution.2.1 inhDemo
     { inhDemo with forcedTemp1 := 9000, forcedTempCookie1 := 3 } 4200
     (by decide) (by decide)).symm⟩

/-- Claim C3: for every registered nonzero cookie, `ReleaseCookie` removes the
cookie from the inhibitor set, clears both forced-temperature layers and the
forced-location slot where held by it, and deregisters the cookie — all in
the one call — and it triggers `screen_update_restart` exactly when at least
one such relation was present; for an unregistered cookie it fails with
UnknownCookie and changes nothing. -/
theorem releaseCookie_spec (s : DBusState) (cookie : ℤ) :
    (cookie ∉ s.cookies → releaseCookie s cookie = .error .unknownCookie) ∧
    (cookie ∈ s.cookies → cookie ≠ 0 →
      ∃ s' restarted, releaseCookie s cookie = .ok (s', restarted) ∧
        cookie ∉ s'.inhibitors ∧
        s'.forcedTempCookie0 ≠ cookie ∧
        s'.forcedTempCookie1 ≠ cookie ∧
        s'.forcedLocationCookie ≠ cookie ∧
        cookie ∉ s'.cookies ∧
        (restarted = true ↔ (cookie ∈ s.inhibitors ∨ s.forcedTempCookie0 = cookie ∨
          s.forcedTempCookie1 = cookie ∨ s.forcedLocationCookie = cookie))) := by
  constructor
  · intro h
    simp [releaseCookie, h]
  · intro hmem hnz
    simp only [releaseCookie, if_pos hmem]
    refine ⟨_, _, rfl, ?_, ?_, ?_, ?_, ?_, ?_⟩
    · simp [List.mem_filter]
    · by_cases h0 : s.forcedTempCookie0 = cookie
      · simp only [if_pos h0]; exact Ne.symm hnz
      · simp only [if_neg h0]; exact h0
    · by_cases h1 : s.forcedTempCookie1 = cookie
      · simp only [if_pos h1]; exact Ne.symm hnz
      · simp only [if_neg h1]; exact h1
    · by_cases h2 : s.forcedLocationCookie = cookie
      · simp only [if_pos h2]; exact Ne.symm hnz
      · simp only [if_neg h2]; exact h2
    · simp [List.mem_filter]
    · simp [Bool.or_eq_true, decide_eq_true_eq, or_assoc]

/-- Witness for C3: releasing cookie 2, which owns an inhibitor entry, the
priority layer and the forced location, removes all of them and restarts
the screen update; releasing the unregistered cookie 3 fails. -/
theorem releaseCookie_spec_witness :
    (releaseCookie relDemo 3 = .error .unknownCookie) ∧
    (∃ s' restarted, releaseCookie relDemo 2 = .ok (s', restarted) ∧
        (2 : ℤ) ∉ s'.inhibitors ∧
        s'.forcedTempCookie0 ≠ 2 ∧
        s'.forcedTempCookie1 ≠ 2 ∧
        s'.forcedLocationCookie ≠ 2 ∧
        (2 : ℤ) ∉ s'.cookies ∧
        (restarted = true ↔ ((2 : ℤ) ∈ relDemo.inhibitors ∨
          relDemo.forcedTempCookie0 = 2 ∨ relDemo.forcedTempCookie1 = 2 ∨
          relDemo.forcedLocationCookie = 2))) :=
  ⟨(releaseCookie_spec relDemo 3).1 (by decide),
   (releaseCookie_spec relDemo 2).2 (by decide) (by decide)⟩

/-- Counterexample to claim C4 as stated: with the normal layer held by
cookie 2, an `EnforceTemperature` call by cookie 1 with the out-of-range
temperature 500 fails with AlreadyEnforced, not with InvalidArgument — the
source checks the layer ownership before the `[1000, 25000]` bounds. -/
theorem enforceTemperature_order_cex :
    enforceTemperature enforceDemo 1 500 false = .error .alreadyEnforced ∧
    enforceTemperature enforceDemo 1 500 false ≠ .error .invalidArgument := by
  constructor
  · rfl
  · intro h
    simp [enforceTemperature, enforceDemo] at h

/-- Claim C4 (amended): for a registered cookie, `EnforceTemperature` first
fails with AlreadyEnforced when the targeted layer (index 1 when priority,
else 0) is held by a different cookie; otherwise it fails with
InvalidArgument when the temperature is outside `[1000, 25000]`; otherwise
it sets or refreshes that layer to (cookie, temperature).  An unregistered
cookie fails with UnknownCookie.  Failing calls change no state. -/
theorem enforceTemperature_spec (s : DBusState) (cookie : ℤ) (temp : ℕ) (priority : Bool) :
    (cookie ∉ s.cookies → enforceTemperature s cookie temp priority = .error .unknownCookie) ∧
    (cookie ∈ s.cookies →
      (if priority then s.forcedTempCookie1 else s.forcedTempCookie0) ≠ 0 →
      (if priority then s.forcedTempCookie1 else s.forcedTempCookie0) ≠ cookie →
      enforceTemperature s cookie temp priority = .error .alreadyEnforced) ∧
    (cookie ∈ s.cookies →
      ((if priority then s.forcedTempCookie1 else s.forcedTempCookie0) = 0 ∨
       (if priority then s.forcedTempCookie1 else s.forcedTempCookie0) = cookie) →
      (temp < MIN_TEMP ∨ MAX_TEMP < temp) →
      enforceTemperature s cookie temp priority = .error .invalidArgument) ∧
    (cookie ∈ s.cookies →
      ((if priority then s.forcedTempCookie1 else s.forcedTempCookie0) = 0 ∨
       (if priority then s.forcedTempCookie1 else s.forcedTempCookie0) = cookie) →
      MIN_TEMP ≤ temp → temp ≤ MAX_TEMP →
      enforceTemperature s cookie temp priority =
        .ok (if priority then { s with forcedTempCookie1 := cookie, forcedTemp1 := temp }
             else { s with forcedTempCookie0 := cookie, forcedTemp0 := temp })) := by
  refine ⟨?_, ?_, ?_, ?_⟩
  · intro h; simp [enforceTemperature, h]
  · intro hmem h1 h2
    simp [enforceTemperature, hmem, h1, h2]
  · intro hmem hor hb
    have hguard : ¬ ((if priority then s.forcedTempCookie1 else s.forcedTempCookie0) ≠ 0 ∧
        (if priority then s.forcedTempCookie1 else s.forcedTempCookie0) ≠ cookie) := by
      rcases hor with h | h <;> simp [h]
    have hcond : temp < MIN_TEMP ∨ temp > MAX_TEMP := hb
    simp only [enforceTemperature, if_pos hmem, if_neg hguard, if_pos hcond]
  · intro hmem hor hlo hhi
    have hguard : ¬ ((if priority then s.forcedTempCookie1 else s.forcedTempCookie0) ≠ 0 ∧
        (if priority then s.forcedTempCookie1 else s.forcedTempCookie0) ≠ cookie) := by
      rcases hor with h | h <;> simp [h]
    have hb : ¬ (temp < MIN_TEMP ∨ temp > MAX_TEMP) := by
      push_neg; exact ⟨hlo, hhi⟩
    simp only [enforceTemperature, if_pos hmem, if_neg hguard, if_neg hb]

/-- Witness for C4 (amended): all four outcomes at concrete inputs. -/
theorem enforceTemperature_spec_witness :
    enforceTemperature enforceDemo 3 2000 false = .error .unknownCookie ∧
    enforceTemperature enforceDemo 1 2000 false = .error .alreadyEnforced ∧
    enforceTemperature enforceDemo 2 500 false = .error .invalidArgument ∧
    enforceTemperature enforceDemo 1 2000 true =
      .ok { enforceDemo with forcedTempCookie1 := 1, forcedTemp1 := 2000 } :=
  ⟨(enforceTemperature_spec enforceDemo 3 2000 false).1 (by decide),
   (enforceTemperature_spec enforceDemo 1 2000 false).2.1 (by decide) (by decide) (by decide),
   (enforceTemperature_spec enforceDemo 2 500 false).2.2.1 (by decide) (by decide) (by decide),
   (enforceTemperature_spec enforceDemo 1 2000 true).2.2.2 (by decide) (by decide)
     (by decide) (by decide)⟩

/-- Claim C5: a read that fills the whole 256-byte buffer with no newline
discards the content, sets skip and resets the cursor; the read in which a
newline is then found with skip set clears skip, resets the cursor and
dispatches nothing; and the next newline-terminated line is dispatched to
`parse_command` normally. -/
theorem socket_overlong_skip_spec (c : CommandInput) (a b l r : List Char)
    (scheme : CmdScheme) (current : CmdColor) (disabled exiting : Bool)
    (ha1 : c.stored.length + a.length = BUF_LEN) (ha2 : '\n' ∉ a)
    (hb : '\n' ∈ b) (_hbl : b.length ≤ BUF_LEN)
    (hl : '\n' ∉ l) (_hlr : l.length + 1 + r.length ≤ BUF_LEN) :
    socketFrame c a = (⟨[], true⟩, none) ∧
    socketFrame ⟨[], true⟩ b = (⟨[], false⟩, none) ∧
    socketFrame ⟨[], false⟩ (l ++ '\n' :: r) = (⟨[], false⟩, some l) ∧
    handleCommandsSocket ⟨[], false⟩ (l ++ '\n' :: r) scheme current disabled exiting =
      ⟨⟨[], false⟩, (parseCommand l scheme current disabled exiting).scheme,
        (parseCommand l scheme current disabled exiting).disabled,
        (parseCommand l scheme current disabled exiting).exiting,
        (parseCommand l scheme current disabled exiting).ret⟩ := by
  have hfa : firstNL a = none := (firstNL_eq_none_iff a).mpr ha2
  have hfl : firstNL (l ++ '\n' :: r) = some l.length := firstNL_append_nl l r hl
  obtain ⟨i, hfb⟩ : ∃ i, firstNL b = some i := by
    cases hfb' : firstNL b with
    | none => exact absurd hb ((firstNL_eq_none_iff b).mp hfb')
    | some i => exact ⟨i, rfl⟩
  refine ⟨?_, ?_, ?_, ?_⟩
  · simp [socketFrame, hfa, ha1]
  · simp [socketFrame, hfb]
  · simp [socketFrame, hfl, List.take_left]
  · simp [handleCommandsSocket, socketFrame, hfl, List.take_left]

/-- Witness for C5: the overlong-then-skip-then-dispatch sequence on a
256-byte newline-free read, then a lone newline, then the line `toggle`. -/
theorem socket_overlong_skip_spec_witness :
    socketFrame ⟨[], false⟩ (List.replicate BUF_LEN 'a') = (⟨[], true⟩, none) ∧
    socketFrame ⟨[], true⟩ ['\n'] = (⟨[], false⟩, none) ∧
    socketFrame ⟨[], false⟩ (['t', 'o', 'g', 'g', 'l', 'e'] ++ '\n' :: []) =
      (⟨[], false⟩, some ['t', 'o', 'g', 'g', 'l', 'e']) ∧
    handleCommandsSocket ⟨[], false⟩ (['t', 'o', 'g', 'g', 'l', 'e'] ++ '\n' :: [])
        schemeBothOverrides neutralCurrent false false =
      ⟨⟨[], false⟩,
        (parseCommand ['t', 'o', 'g', 'g', 'l', 'e'] schemeBothOverrides neutralCurrent
          false false).scheme,
        (parseCommand ['t', 'o', 'g', 'g', 'l', 'e'] schemeBothOverrides neutralCurrent
          false false).disabled,
        (parseCommand ['t', 'o', 'g', 'g', 'l', 'e'] schemeBothOverrides neutralCurrent
          false false).exiting,
        (parseCommand ['t', 'o', 'g', 'g', 'l', 'e'] schemeBothOverrides neutralCurrent
          false false).ret⟩ :=
  socket_overlong_skip_spec ⟨[], false⟩ (List.replicate BUF_LEN 'a') ['\n']
    ['t', 'o', 'g', 'g', 'l', 'e'] [] schemeBothOverrides neutralCurrent false false
    (by simp) (by simp) (by simp) (by simp [BUF_LEN]) (by decide) (by decide)

/-- Claim C6 evaluated at its failing input: a cycle in which stdin delivers
`brightness reset` and a connection delivers `temp reset` — both of which
clear a standing override, a state change — returns count 0, because
`parse_command` returns 0 from the reset arms; the claim says such sources
are counted. -/
theorem reset_commands_not_counted :
    (handlePollResults ⟨true, ⟨[], false⟩, [some ⟨[], false⟩]⟩
        (.ready (some ("brightness reset\n".toList)))
        [.dataReady ("temp reset\n".toList)]
        schemeBothOverrides neutralCurrent false false).count = 0 ∧
    (handlePollResults ⟨true, ⟨[], false⟩, [some ⟨[], false⟩]⟩
        (.ready (some ("brightness reset\n".toList)))
        [.dataReady ("temp reset\n".toList)]
        schemeBothOverrides neutralCurrent false false).scheme =
      { schemeBothOverrides with useOverrideTemp := false,
                                 useOverrideBrightness := false } ∧
    ({ schemeBothOverrides with useOverrideTemp := false,
                                useOverrideBrightness := false } : CmdScheme)
      ≠ schemeBothOverrides := by
  refine ⟨rfl, rfl, ?_⟩
  intro h
  simp [schemeBothOverrides] at h

/-- Claim C7 evaluated at its failing input: a zero-length read (peer EOF,
modelled by empty peeked data) makes `handle_commands_socket` return 0 with
the buffer unchanged, so `handle_poll_results` — which tears a connection
down only on a negative return — keeps the slot open; the claim says the
slot is closed and freed in the same cycle. -/
theorem eof_connection_kept :
    (handleCommandsSocket ⟨[], false⟩ [] schemeBothOverrides neutralCurrent
        false false).ret = 0 ∧
    (handleCommandsSocket ⟨[], false⟩ [] schemeBothOverrides neutralCurrent
        false false).input = ⟨[], false⟩ ∧
    (handlePollResults ⟨false, ⟨[], false⟩, [some ⟨[], false⟩]⟩ .quiet [.dataReady []]
        schemeBothOverrides neutralCurrent false false).mux.conns =
      [some ⟨[], false⟩] ∧
    (handlePollResults ⟨false, ⟨[], false⟩, [some ⟨[], false⟩]⟩ .quiet [.dataReady []]
        schemeBothOverrides neutralCurrent false false).count = 0 :=
  ⟨rfl, rfl, rfl, rfl⟩

/-- Claim C8 evaluated at its failing input: a fade restart at elapsed tick
41 (reachable, since the short-transition timer keeps running past
`trans_length` while the brightness ramp is unfinished) computes
`trans_length = 40 - 41` in `guint` arithmetic, wrapping to 4294967295
instead of a non-negative remaining length; at elapsed tick 30 the claimed
formula 40 - 30 = 10 does hold. -/
theorem trans_restart_wraps :
    transRestart 41 = (4294967295, 0) ∧ ¬ (transRestart 41).1 ≤ 40 ∧
    transRestart 30 = (10, 0) := by
  refine ⟨by rfl, by decide, by rfl⟩

/-- Counterexample to claim C9 as stated: a fully-specified time
configuration whose dawn window has zero length (start = end = 100) is
accepted by the initialization check (`use_time` is set), not rejected. -/
theorem zero_length_window_accepted :
    timeOptionsCheck 100 100 200 300 = .ok true := by rfl

/-- Claim C9 (amended): for a fully-specified time configuration (all four
offsets non-negative), initialization accepts — setting `use_time` — exactly
when `dawn.start ≤ dawn.end ≤ dusk.start ≤ dusk.end`, and rejects exactly
when that ordering fails; zero-length windows satisfy the ordering and are
accepted (the runtime dividing branches are unreachable for them, claim
C10). -/
theorem timeOptionsCheck_spec (a b c d : ℤ)
    (ha : 0 ≤ a) (hb : 0 ≤ b) (hc : 0 ≤ c) (hd : 0 ≤ d) :
    (timeOptionsCheck a b c d = .ok true ↔ (a ≤ b ∧ b ≤ c ∧ c ≤ d)) ∧
    (timeOptionsCheck a b c d = .error () ↔ ¬(a ≤ b ∧ b ≤ c ∧ c ≤ d)) := by
  have h1 : a ≥ 0 ∨ b ≥ 0 ∨ c ≥ 0 ∨ d ≥ 0 := Or.inl ha
  have h2 : ¬(a < 0 ∨ b < 0 ∨ c < 0 ∨ d < 0) := by omega
  simp only [timeOptionsCheck, if_pos h1, if_neg h2]
  by_cases h3 : a > b ∨ b > c ∨ c > d
  · rw [if_pos h3]
    refine ⟨⟨fun h => absurd h (by simp), fun h => absurd h3 (by omega)⟩,
            ⟨fun _ => by omega, fun _ => rfl⟩⟩
  · rw [if_neg h3]
    refine ⟨⟨fun _ => by omega, fun _ => rfl⟩,
            ⟨fun h => absurd h (by simp),
             fun h => absurd (show a ≤ b ∧ b ≤ c ∧ c ≤ d by omega) h⟩⟩

/-- Witness for C9 (amended): an ordered configuration (with a zero-length
dawn window) is accepted; an inverted one is rejected. -/
theorem timeOptionsCheck_spec_witness :
    timeOptionsCheck 100 100 200 300 = .ok true ∧
    timeOptionsCheck 100 99 200 300 = .error () :=
  ⟨(timeOptionsCheck_spec 100 100 200 300 (by decide) (by decide) (by decide)
      (by decide)).1.mpr (by decide),
   (timeOptionsCheck_spec 100 99 200 300 (by decide) (by decide) (by decide)
      (by decide)).2.mpr (by decide)⟩

/-- Claim C10: for every scheme with
`dawn.start ≤ dawn.end ≤ dusk.start ≤ dusk.end` (equalities allowed) and
every time offset, each dividing branch of
`get_transition_progress_from_time` is reachable only when its window has
nonzero length (so its denominator is nonzero), and the result always lies
in `[0, 1]`. -/
theorem progressFromTime_spec (t : TransitionScheme)
    (h1 : t.dawnStart ≤ t.dawnEnd) (_h2 : t.dawnEnd ≤ t.duskStart)
    (h3 : t.duskStart ≤ t.duskEnd) (x : ℤ) :
    (t.dawnStart ≤ x → x < t.dawnEnd →
      t.dawnStart < t.dawnEnd ∧ ((t.dawnStart - t.dawnEnd : ℤ) : ℚ) ≠ 0) ∧
    (t.duskStart < x → x < t.duskEnd →
      t.duskStart < t.duskEnd ∧ ((t.duskEnd - t.duskStart : ℤ) : ℚ) ≠ 0) ∧
    0 ≤ getTransitionProgressFromTime t x ∧
    getTransitionProgressFromTime t x ≤ 1 := by
  refine ⟨?_, ?_, ?_⟩
  · intro hax hbx
    refine ⟨by omega, ?_⟩
    have hne : (t.dawnStart - t.dawnEnd : ℤ) ≠ 0 := by omega
    exact_mod_cast hne
  · intro hax hbx
    refine ⟨by omega, ?_⟩
    have hne : (t.duskEnd - t.duskStart : ℤ) ≠ 0 := by omega
    exact_mod_cast hne
  · unfold getTransitionProgressFromTime
    split_ifs with hc1 hc2 hc3
    · norm_num
    · push_neg at hc1
      have hlt : t.dawnStart < t.dawnEnd := by omega
      have heq : ((t.dawnStart - x : ℤ) : ℚ) / ((t.dawnStart - t.dawnEnd : ℤ) : ℚ) =
          ((x - t.dawnStart : ℤ) : ℚ) / ((t.dawnEnd - t.dawnStart : ℤ) : ℚ) := by
        rw [show ((t.dawnStart - x : ℤ) : ℚ) = -((x - t.dawnStart : ℤ) : ℚ) by
              push_cast; ring,
            show ((t.dawnStart - t.dawnEnd : ℤ) : ℚ) =
                -((t.dawnEnd - t.dawnStart : ℤ) : ℚ) by push_cast; ring,
            neg_div_neg_eq]
      rw [heq]
      have hdenpos : (0 : ℚ) < ((t.dawnEnd - t.dawnStart : ℤ) : ℚ) := by
        exact_mod_cast (show (0 : ℤ) < t.dawnEnd - t.dawnStart by omega)
      have hnum0 : (0 : ℚ) ≤ ((x - t.dawnStart : ℤ) : ℚ) := by
        exact_mod_cast (show (0 : ℤ) ≤ x - t.dawnStart by omega)
      have hnum1 : ((x - t.dawnStart : ℤ) : ℚ) ≤ ((t.dawnEnd - t.dawnStart : ℤ) : ℚ) := by
        exact_mod_cast (show (x - t.dawnStart : ℤ) ≤ t.dawnEnd - t.dawnStart by omega)
      exact ⟨div_nonneg hnum0 hdenpos.le, (div_le_one hdenpos).mpr hnum1⟩
    · push_neg at hc1
      have hdenpos : (0 : ℚ) < ((t.duskEnd - t.duskStart : ℤ) : ℚ) := by
        exact_mod_cast (show (0 : ℤ) < t.duskEnd - t.duskStart by omega)
      have hnum0 : (0 : ℚ) ≤ ((t.duskEnd - x : ℤ) : ℚ) := by
        exact_mod_cast (show (0 : ℤ) ≤ t.duskEnd - x by omega)
      have hnum1 : ((t.duskEnd - x : ℤ) : ℚ) ≤ ((t.duskEnd - t.duskStart : ℤ) : ℚ) := by
        exact_mod_cast (show (t.duskEnd - x : ℤ) ≤ t.duskEnd - t.duskStart by omega)
      exact ⟨div_nonneg hnum0 hdenpos.le, (div_le_one hdenpos).mpr hnum1⟩
    · norm_num

/-- Witness for C10: the progress lies in `[0, 1]` mid-dawn and at night on
the concrete dawn 6:00-7:00 / dusk 20:00-21:00 scheme. -/
theorem progressFromTime_spec_witness :
    (0 ≤ getTransitionProgressFromTime timeDemo 23400 ∧
     getTransitionProgressFromTime timeDemo 23400 ≤ 1) ∧
    (0 ≤ getTransitionProgressFromTime timeDemo 90000 ∧
     getTransitionProgressFromTime timeDemo 90000 ≤ 1) :=
  ⟨(progressFromTime_spec timeDemo (by decide) (by decide) (by decide) 23400).2.2,
   (progressFromTime_spec timeDemo (by decide) (by decide) (by decide) 90000).2.2⟩

end Redshift
